import Mathlib

/-!
Verification development for the DSS server browser.

This file gives a shallow embedding of the discovery core of the
repository: the wire-protocol client (`backend/dss_query.py`), the
persistent server store (`backend/storage/servers.py`, a sqlite table
modelled as a list of rows), and the discovery/validation service
(`backend/network/dynamic_servers.py`).

Conventions of the embedding:
- bytes are `Nat` values (< 256 on any real wire input);
- Python `bytes` values are `List Nat`; Python `str` values produced by
  byte decoding are `List Nat` of Unicode code points;
- SQL `NULL`-able columns are `Option` fields; timestamps are `Nat`
  values and `datetime.now()` becomes an explicit `now` parameter;
- socket input is a `List Nat` byte stream consumed from the front; a
  read past the end of the stream is a closed connection;
- Python exceptions relevant to the modelled code paths are the
  constructors of `PyErr`; fallible functions return `Except PyErr`.
-/

namespace DSSB

/-! ## Byte-level helpers (struct.pack / struct.unpack with "<I" and "<H") -/

/-- Byte at index `i` of a buffer, `0` past the end (uses are guarded by
explicit length checks, mirroring `struct.unpack_from` bounds checks). -/
def byteAt (l : List Nat) (i : Nat) : Nat := l.getD i 0

/-- `struct.pack("<I", n)` for `n < 2^32`: 4-byte little-endian encoding. -/
def toLE4 (n : Nat) : List Nat :=
  [n % 256, n / 256 % 256, n / 65536 % 256, n / 16777216 % 256]

/-- `struct.unpack_from("<I", l, off)`: little-endian 32-bit read at `off`. -/
def fromLE4At (l : List Nat) (off : Nat) : Nat :=
  byteAt l off + 256 * byteAt l (off + 1) + 65536 * byteAt l (off + 2) +
    16777216 * byteAt l (off + 3)

/-- One `H` of `struct.unpack_from("<HH", l, off)`: little-endian 16-bit read. -/
def fromLE2At (l : List Nat) (off : Nat) : Nat :=
  byteAt l off + 256 * byteAt l (off + 1)

/-! ## UTF-8 (CPython `bytes.decode(errors="ignore")` and `str.encode()`)

`decodeOne` decodes the first UTF-8 sequence of a byte list, returning the
code point and the number of bytes consumed; it enforces exactly CPython's
validity rules (continuation ranges, no overlongs, no surrogates, max
U+10FFFF).  The `ignore` error handler skips the offending byte and
resumes; skipping one byte at a time agrees with CPython's
maximal-subpart skipping because every byte of an invalid subpart after
the first is a continuation byte, which is itself an invalid start. -/

/-- Is `b` a UTF-8 continuation byte `0x80..0xBF`? -/
def isCont (b : Nat) : Bool := 0x80 ≤ b && b ≤ 0xBF

/-- Valid range of the first continuation byte given lead byte `b0`
(excludes overlong encodings, surrogates and code points above U+10FFFF). -/
def utf8Second (b0 b1 : Nat) : Bool :=
  if b0 = 0xE0 then 0xA0 ≤ b1 && b1 ≤ 0xBF
  else if b0 = 0xED then 0x80 ≤ b1 && b1 ≤ 0x9F
  else if b0 = 0xF0 then 0x90 ≤ b1 && b1 ≤ 0xBF
  else if b0 = 0xF4 then 0x80 ≤ b1 && b1 ≤ 0x8F
  else isCont b1

/-- Decode the first UTF-8 sequence: `some (codepoint, bytes consumed)`,
or `none` if the head of the list is not a valid sequence.  A byte read
past the end of the list is taken as `0`, which fails every continuation
test, so a truncated sequence decodes to `none` exactly as in CPython. -/
def decodeOne : List Nat → Option (Nat × Nat)
  | [] => none
  | b0 :: rest =>
    let b1 := rest.getD 0 0
    let b2 := rest.getD 1 0
    let b3 := rest.getD 2 0
    if b0 < 0x80 then some (b0, 1)
    else if b0 < 0xC2 then none
    else if b0 ≤ 0xDF then
      if isCont b1 then some ((b0 - 0xC0) * 0x40 + (b1 - 0x80), 2) else none
    else if b0 ≤ 0xEF then
      if utf8Second b0 b1 && isCont b2 then
        some ((b0 - 0xE0) * 0x1000 + (b1 - 0x80) * 0x40 + (b2 - 0x80), 3)
      else none
    else if b0 ≤ 0xF4 then
      if utf8Second b0 b1 && isCont b2 && isCont b3 then
        some ((b0 - 0xF0) * 0x40000 + (b1 - 0x80) * 0x1000 + (b2 - 0x80) * 0x40 + (b3 - 0x80), 4)
      else none
    else none

/-- `bytes.decode(errors="ignore")`, fuelled so that the recursion is
structural (each step consumes at least one byte, so `l.length` fuel is
always enough). -/
def decodeIgnoreAux : Nat → List Nat → List Nat
  | _, [] => []
  | 0, _ :: _ => []
  | fuel + 1, b :: t =>
    match decodeOne (b :: t) with
    | some (cp, k) => cp :: decodeIgnoreAux fuel ((b :: t).drop k)
    | none => decodeIgnoreAux fuel t

/-- `bytes.decode(errors="ignore")`: code points of `l`, invalid bytes skipped. -/
def utf8DecodeIgnore (l : List Nat) : List Nat := decodeIgnoreAux l.length l

/-- Is `l` entirely valid UTF-8 (so that `decode(errors="ignore")` is lossless)? -/
def validAux : Nat → List Nat → Bool
  | _, [] => true
  | 0, _ :: _ => false
  | fuel + 1, b :: t =>
    match decodeOne (b :: t) with
    | some (_, k) => validAux fuel ((b :: t).drop k)
    | none => false

/-- `l` is a valid UTF-8 byte sequence. -/
def utf8Valid (l : List Nat) : Bool := validAux l.length l

/-- `str.encode()` of a single code point (standard UTF-8 encoder). -/
def encodeChar (c : Nat) : List Nat :=
  if c < 0x80 then [c]
  else if c < 0x800 then [0xC0 + c / 0x40, 0x80 + c % 0x40]
  else if c < 0x10000 then
    [0xE0 + c / 0x1000, 0x80 + c / 0x40 % 0x40, 0x80 + c % 0x40]
  else
    [0xF0 + c / 0x40000, 0x80 + c / 0x1000 % 0x40, 0x80 + c / 0x40 % 0x40, 0x80 + c % 0x40]

/-- `str.encode()` of a decoded string (list of code points). -/
def utf8Encode (cps : List Nat) : List Nat := cps.flatMap encodeChar

/-! ## Wire protocol client (`backend/dss_query.py`) -/

/-- Python exceptions that can escape the modelled `dss_query` code paths:
`ConnectionError` from `recv_exact` on a closed stream, `IndexError` from
subscripting, `struct.error` from `unpack_from` past the buffer, and
`ValueError` (raised explicitly for a bad greeting type byte, and by
`bytes.index` when no NUL terminator is found). -/
inductive PyErr where
  | connectionError : PyErr
  | indexError : PyErr
  | structError : PyErr
  | valueError : String → PyErr
deriving DecidableEq

/-- `LISTING_USERNAME = "__dsslist"` as its ASCII bytes. -/
def listingUsernameBytes : List Nat := [95, 95, 100, 115, 115, 108, 105, 115, 116]

def NET_MSG_LISTING : Nat := 0

def NET_SVM_WHATS_UP : Nat := 1

def NET_SVM_LIST_SERVER : Nat := 2

def NET_SI_USE_SSL : Nat := 1

/-- Result dictionary of `parse_list_server` / `query_dss`: the three
decoded strings, the icon bytes and the two player counts. -/
structure ListServerResult where
  name : List Nat
  info : List Nat
  news : List Nat
  players : Nat
  max_players : Nat
  icon : List Nat
deriving DecidableEq

/-- `recv_packet(sock)`: read a 4-byte little-endian length header, then
`size - 4` further bytes; returns the whole frame (header included) and
the unread remainder of the stream.  A stream too short to satisfy a read
is a closed connection (`recv_exact` raises `ConnectionError`); a declared
size below 4 makes `recv_exact` read 0 bytes, as in Python. -/
def recv_packet (stream : List Nat) : Except PyErr (List Nat × List Nat) :=
  if stream.length < 4 then .error .connectionError
  else
    let size := fromLE4At stream 0
    let rest := stream.drop 4
    if rest.length < size - 4 then .error .connectionError
    else .ok (stream.take 4 ++ rest.take (size - 4), rest.drop (size - 4))

/-- `parse_whats_up(pkt)`: strip the 4-byte header, check the message-type
byte against `NET_SVM_WHATS_UP`, and return `(flags, version, netver)`
with `netver` decoded permissively from the remaining bytes. -/
def parse_whats_up (pkt : List Nat) : Except PyErr (Nat × Nat × List Nat) :=
  let msg := pkt.drop 4
  match msg with
  | [] => .error .indexError
  | b0 :: tail =>
    if b0 ≠ NET_SVM_WHATS_UP then .error (.valueError "Expected WHATS_UP")
    else
      match tail with
      | [] => .error .indexError
      | _ :: _ =>
        if msg.length < 6 then .error .structError
        else .ok (msg.getD 1 0, fromLE4At msg 2, utf8DecodeIgnore (msg.drop 6))

/-- `build_listing_request(version, netver)`: message type, echoed version,
re-encoded network-version string plus NUL, authenticated flag, listing
username; framed with its little-endian total length. -/
def build_listing_request (version : Nat) (netver : List Nat) : List Nat :=
  let payload := NET_MSG_LISTING :: toLE4 version ++ utf8Encode netver ++ [0, 1] ++
    listingUsernameBytes
  toLE4 (4 + payload.length) ++ payload

/-- Index of the first `0` byte at position `≥ off` (`buf.index(0, off)`). -/
def indexOfZeroFrom (buf : List Nat) (off : Nat) : Option Nat :=
  match (buf.drop off).findIdx? (fun b => b == 0) with
  | some j => some (off + j)
  | none => none

/-- `read_cstring(buf, off)`: decode up to the next NUL, return the string
and the offset just past the NUL; `ValueError` if no NUL is found. -/
def read_cstring (buf : List Nat) (off : Nat) : Except PyErr (List Nat × Nat) :=
  match indexOfZeroFrom buf off with
  | none => .error (.valueError "subsection not found")
  | some e => .ok (utf8DecodeIgnore ((buf.take e).drop off), e + 1)

/-- `parse_list_server(pkt)`: skip the 4-byte header AND the message-type
byte (`pkt[5:]` — the type byte is never compared to anything), then read
three NUL-terminated strings, the icon length and bytes, and the two
16-bit player counts. -/
def parse_list_server (pkt : List Nat) : Except PyErr ListServerResult := do
  let buf := pkt.drop 5
  let (name, o1) ← read_cstring buf 0
  let (info, o2) ← read_cstring buf o1
  let (news, o3) ← read_cstring buf o2
  if buf.length < o3 + 4 then .error .structError
  else
    let iconSize := fromLE4At buf o3
    let o4 := o3 + 4
    let icon := (buf.drop o4).take iconSize
    let o5 := o4 + iconSize
    if buf.length < o5 + 4 then .error .structError
    else
      .ok { name := name, info := info, news := news,
            players := fromLE2At buf o5, max_players := fromLE2At buf (o5 + 2),
            icon := icon }

/-- `query_dss(host, port)` as a function of the byte stream the server
sends: receive and parse the greeting, (transparently) upgrade to TLS if
the flags ask for it, send the listing request, receive and parse the
listing response.  The TLS upgrade does not change the byte-level framing,
so it is invisible to this model. -/
def query_dss (stream : List Nat) : Except PyErr ListServerResult :=
  match recv_packet stream with
  | .error e => .error e
  | .ok (pkt1, rest) =>
    match parse_whats_up pkt1 with
    | .error e => .error e
    | .ok (_flags, version, netver) =>
      let _request := build_listing_request version netver
      match recv_packet rest with
      | .error e => .error e
      | .ok (pkt2, _) => parse_list_server pkt2

/-- The listing-request bytes `query_dss` sends, as a function of the same
stream (the request is fully determined by the parsed greeting). -/
def query_dss_sent (stream : List Nat) : Except PyErr (List Nat) :=
  match recv_packet stream with
  | .error e => .error e
  | .ok (pkt1, _) =>
    match parse_whats_up pkt1 with
    | .error e => .error e
    | .ok (_flags, version, netver) => .ok (build_listing_request version netver)

/-! ## Server store (`backend/storage/servers.py`)

The sqlite table `servers` is modelled as a list of rows plus the next
AUTOINCREMENT id.  `NULL`-able columns are `Option` fields.  SQL `UPDATE
... WHERE ip = ? AND port = ?` updates every matching row (at most one in
any state produced through `add_server`, thanks to `UNIQUE(ip, port)`). -/

/-- One row of the `servers` table. -/
structure ServerRecord where
  id : Nat
  ip : String
  port : Nat
  name : Option String
  info : Option String
  news : Option String
  players : Option Nat
  max_players : Option Nat
  icon : Option (List Nat)
  website : Option String
  source : String
  trusted : Bool
  important : Bool
  last_seen : Option Nat
  last_queried : Option Nat
  query_failures : Nat
  added_date : Nat
deriving DecidableEq

/-- The `servers` table plus the next AUTOINCREMENT id. -/
structure Store where
  rows : List ServerRecord
  nextId : Nat
deriving DecidableEq

/-- A `dss_query` result as passed to `update_server_info` (a Python dict
read with `.get`, hence every field can be absent). -/
structure Snapshot where
  name : Option String
  info : Option String
  news : Option String
  players : Option Nat
  max_players : Option Nat
  icon : Option (List Nat)
deriving DecidableEq

/-- The SQL predicate `ip = ? AND port = ?`. -/
def keyIs (ip : String) (port : Nat) (r : ServerRecord) : Bool :=
  r.ip == ip && r.port == port

/-- `UPDATE ... SET ... WHERE p`: apply `f` to every row satisfying `p`. -/
def updateWhere (p : ServerRecord → Bool) (f : ServerRecord → ServerRecord)
    (l : List ServerRecord) : List ServerRecord :=
  l.map fun r => if p r then f r else r

/-- The `source` CASE of `add_server`'s `ON CONFLICT ... DO UPDATE`:
favorite wins over both the incoming and the stored value. -/
def mergeSource (oldSrc newSrc : String) : String :=
  if newSrc == "favorite" then "favorite"
  else if oldSrc == "favorite" then "favorite"
  else newSrc

/-- The `DO UPDATE SET` clause of `add_server` applied to the conflicting
row: merged source, overwritten trusted/important, refreshed last_seen,
and `website = COALESCE(excluded.website, servers.website)`. -/
def mergeRow (now : Nat) (source : String) (trusted important : Bool)
    (website : Option String) (r : ServerRecord) : ServerRecord :=
  { r with
    source := mergeSource r.source source,
    trusted := trusted,
    important := important,
    last_seen := some now,
    website := match website with | some w => some w | none => r.website }

/-- A freshly inserted row of `add_server` (all queried columns at their
sqlite defaults, `added_date` at `CURRENT_TIMESTAMP`). -/
def freshRow (now : Nat) (rid : Nat) (ip : String) (port : Nat) (source : String)
    (trusted important : Bool) (website : Option String) : ServerRecord :=
  { id := rid, ip := ip, port := port,
    name := none, info := none, news := none,
    players := none, max_players := none, icon := none,
    website := website, source := source,
    trusted := trusted, important := important,
    last_seen := some now, last_queried := none,
    query_failures := 0, added_date := now }

/-- `ServerManager.add_server`: `INSERT ... ON CONFLICT(ip, port) DO
UPDATE ... RETURNING id`.  Returns the id of the inserted or updated row
and the new store. -/
def add_server (now : Nat) (ip : String) (port : Nat) (source : String)
    (trusted important : Bool) (website : Option String) (st : Store) : Nat × Store :=
  if st.rows.any (keyIs ip port) then
    let rid := match st.rows.find? (keyIs ip port) with
      | some r => r.id
      | none => 0
    (rid, { st with
            rows := updateWhere (keyIs ip port)
              (mergeRow now source trusted important website) st.rows })
  else
    (st.nextId,
     { rows := st.rows ++ [freshRow now st.nextId ip port source trusted important website],
       nextId := st.nextId + 1 })

/-- `ServerManager.update_server_info`: overwrite the queried columns,
refresh `last_queried`, reset `query_failures` to 0, on every row with the
given key. -/
def update_server_info (now : Nat) (ip : String) (port : Nat) (snap : Snapshot)
    (st : Store) : Store :=
  { st with
    rows := updateWhere (keyIs ip port)
      (fun r => { r with
        name := snap.name, info := snap.info, news := snap.news,
        players := snap.players, max_players := snap.max_players,
        icon := snap.icon, last_queried := some now, query_failures := 0 }) st.rows }

/-- `ServerManager.mark_query_failure`: increment `query_failures` and
refresh `last_queried` on every row with the given key. -/
def mark_query_failure (now : Nat) (ip : String) (port : Nat) (st : Store) : Store :=
  { st with
    rows := updateWhere (keyIs ip port)
      (fun r => { r with
        query_failures := r.query_failures + 1, last_queried := some now }) st.rows }

/-- `ServerManager.get_server`: `SELECT * ... WHERE ip = ? AND port = ?`,
first matching row or `None`. -/
def get_server (ip : String) (port : Nat) (st : Store) : Option ServerRecord :=
  st.rows.find? (keyIs ip port)

/-- The `WHERE` clause of `cleanup_failed_servers`. -/
def evictCond (max_failures : Nat) (r : ServerRecord) : Bool :=
  r.source == "dynamic" && max_failures ≤ r.query_failures

/-- `ServerManager.cleanup_failed_servers`: `DELETE ... WHERE source =
'dynamic' AND query_failures >= ? RETURNING ip, port`.  Returns the
removed `(ip, port)` pairs and the new store. -/
def cleanup_failed_servers (max_failures : Nat) (st : Store) :
    List (String × Nat) × Store :=
  ((st.rows.filter (evictCond max_failures)).map (fun r => (r.ip, r.port)),
   { st with rows := st.rows.filter (fun r => !(evictCond max_failures r)) })

/-- `ServerManager.set_favorite`: force `source = 'favorite'`, or revert
`source` to `'manual'` only on rows whose current source is `'favorite'`. -/
def set_favorite (ip : String) (port : Nat) (is_favorite : Bool) (st : Store) : Store :=
  if is_favorite then
    { st with
      rows := updateWhere (keyIs ip port)
        (fun r => { r with source := "favorite" }) st.rows }
  else
    { st with
      rows := updateWhere (fun r => keyIs ip port r && r.source == "favorite")
        (fun r => { r with source := "manual" }) st.rows }

/-! ### `search_servers` and sqlite `LIKE`

Sqlite's default `LIKE` is case-insensitive for the ASCII letters
(`A`-`Z` fold onto `a`-`z`; nothing else folds), `%` matches any
character sequence and `_` any single character; `NULL LIKE p` is not
true.  The matcher is fuelled so that the recursion is structural: every
recursive call shrinks `p.length + s.length` by at least one, so
`p.length + s.length + 1` fuel always reaches a base case. -/

/-- Sqlite's ASCII-only case folding. -/
def asciiLower (c : Char) : Char :=
  if 65 ≤ c.toNat && c.toNat ≤ 90 then Char.ofNat (c.toNat + 32) else c

/-- Fuelled sqlite `LIKE` pattern matcher over characters. -/
def likeAux : Nat → List Char → List Char → Bool
  | 0, _, _ => false
  | _ + 1, [], s => s.isEmpty
  | fuel + 1, c :: ps, s =>
    if c = '%' then
      likeAux fuel ps s ||
        (match s with
         | [] => false
         | _ :: s2 => likeAux fuel (c :: ps) s2)
    else
      match s with
      | [] => false
      | d :: s2 => (c = '_' || asciiLower c = asciiLower d) && likeAux fuel ps s2

/-- `s LIKE p` with sqlite's default semantics. -/
def sqliteLike (p s : List Char) : Bool := likeAux (p.length + s.length + 1) p s

/-- `col LIKE ?` on a `NULL`-able column: `NULL` never matches. -/
def optLike (p : List Char) (s : Option String) : Bool :=
  match s with
  | none => false
  | some str => sqliteLike p str.toList

/-- The `WHERE` clause of `search_servers` with `search_pattern = "%" +
query + "%"`: name, info or ip matches the pattern. -/
def searchMatch (q : String) (r : ServerRecord) : Bool :=
  let pat := '%' :: q.toList ++ ['%']
  optLike pat r.name || optLike pat r.info || sqliteLike pat r.ip.toList

/-- Sort key of `ORDER BY important DESC, trusted DESC, players DESC`
(`NULL` sorts below every number, hence last under `DESC`). -/
def orderKey (r : ServerRecord) : Nat × Nat × Int :=
  (if r.important then 1 else 0,
   if r.trusted then 1 else 0,
   match r.players with | none => -1 | some n => (n : Int))

/-- Row comparator realising the `ORDER BY ... DESC` clauses. -/
def rowLe (a b : ServerRecord) : Bool :=
  let (i1, t1, p1) := orderKey a
  let (i2, t2, p2) := orderKey b
  decide (i2 < i1 ∨ (i2 = i1 ∧ (t2 < t1 ∨ (t2 = t1 ∧ p2 ≤ p1))))

/-- The shared `ORDER BY important DESC, trusted DESC, players DESC`. -/
def sortRows (l : List ServerRecord) : List ServerRecord := l.mergeSort rowLe

/-- `ServerManager.search_servers`: rows whose name, info or ip `LIKE`s
the `%query%` pattern, in the standard listing order. -/
def search_servers (q : String) (st : Store) : List ServerRecord :=
  sortRows (st.rows.filter (searchMatch q))

/-! ## Discovery service (`backend/network/dynamic_servers.py`) -/

/-- `DynamicServerLoader.validate_and_add_server`, as a function of the
query's outcome (`qres = some info` when `query_function` returns `info`,
`none` when it raises).  On success: `add_server` with `source="dynamic"`
then `update_server_info`; returns `True`.  On failure: `mark_query_failure`
only if a record with that key already exists; returns `False`.  Events
are side-effect-free callbacks and are not modelled. -/
def validate_and_add_server (now : Nat) (ip : String) (port : Nat)
    (trusted important : Bool) (website : Option String)
    (qres : Option Snapshot) (st : Store) : Bool × Store :=
  match qres with
  | some info =>
    let st1 := (add_server now ip port "dynamic" trusted important website st).2
    (true, update_server_info now ip port info st1)
  | none =>
    if (get_server ip port st).isSome then
      (false, mark_query_failure now ip port st)
    else
      (false, st)

/-! ## Derived definitions used by the statements below -/

/-- The `(ip, port)` identities of the rows of a store, in table order. -/
def storeKeys (st : Store) : List (String × Nat) :=
  st.rows.map fun r => (r.ip, r.port)

/-- A well-formed greeting frame: length header, `WHATS_UP` type byte,
flags byte, 4-byte little-endian protocol version, raw network-version
bytes running to the end of the frame. -/
def greetingFrame (flags version : Nat) (netver : List Nat) : List Nat :=
  toLE4 (10 + netver.length) ++ NET_SVM_WHATS_UP :: flags :: (toLE4 version ++ netver)

/-! ### The search claim's own predicate (case-sensitive substring)

`matchesCaseSensitive` is NOT a model of the code: it follows the words of
the search claim ("contains q as a case-sensitive substring" of name, info
or ip) so that the code's sqlite-`LIKE` behaviour can be compared with it. -/

/-- Does `s` start with `q` (exact characters)? -/
def startsWithCh : List Char → List Char → Bool
  | [], _ => true
  | _ :: _, [] => false
  | c :: q, d :: s => c == d && startsWithCh q s

/-- Case-sensitive substring containment of `q` in `s`. -/
def containsCS (q : List Char) : List Char → Bool
  | [] => q.isEmpty
  | d :: s' => startsWithCh q (d :: s') || containsCS q s'

/-- Case-sensitive `col` contains-`q` on a `NULL`-able column. -/
def optContainsCS (q : List Char) (s : Option String) : Bool :=
  match s with
  | none => false
  | some str => containsCS q str.toList

/-- The claim's search predicate: name, info or ip contains the query as a
case-sensitive substring. -/
def matchesCaseSensitive (q : String) (r : ServerRecord) : Bool :=
  optContainsCS q.toList r.name || optContainsCS q.toList r.info ||
    containsCS q.toList r.ip.toList

/-! ## Concrete stores used by witnesses and counterexamples -/

/-- A favorite record (with a non-empty stored website). -/
def rowFav : ServerRecord :=
  { id := 1, ip := "alpha", port := 10, name := some "Alpha", info := none,
    news := none, players := some 3, max_players := some 8, icon := some [1, 2],
    website := some "w", source := "favorite", trusted := false, important := false,
    last_seen := some 1, last_queried := some 1, query_failures := 2, added_date := 0 }

/-- A dynamic record with 5 recorded failures. -/
def rowDyn : ServerRecord :=
  { id := 2, ip := "beta", port := 20, name := none, info := none,
    news := none, players := none, max_players := none, icon := none,
    website := none, source := "dynamic", trusted := false, important := false,
    last_seen := some 1, last_queried := some 2, query_failures := 5, added_date := 0 }

/-- A manual record with many failures (never evicted). -/
def rowMan : ServerRecord :=
  { id := 3, ip := "gamma", port := 30, name := some "G", info := some "i",
    news := none, players := some 0, max_players := some 4, icon := none,
    website := none, source := "manual", trusted := true, important := false,
    last_seen := some 1, last_queried := some 3, query_failures := 9, added_date := 0 }

/-- A three-row store exercising all three sources. -/
def exStore : Store := { rows := [rowFav, rowDyn, rowMan], nextId := 4 }

/-- A row whose name contains `"a"` only case-insensitively. -/
def rowUpper : ServerRecord :=
  { id := 1, ip := "zz", port := 1, name := some "A", info := none,
    news := none, players := none, max_players := none, icon := none,
    website := none, source := "manual", trusted := false, important := false,
    last_seen := none, last_queried := none, query_failures := 0, added_date := 0 }

/-- A one-row store for the search counterexample. -/
def stC3 : Store := { rows := [rowUpper], nextId := 2 }

/-- The greeting+response stream of the C5 counterexample: a well-formed
greeting (version 3, network version "1.0") followed by a listing-response
frame whose message-type byte is 99, not `LIST_SERVER = 2`. -/
def streamC5 : List Nat :=
  [13, 0, 0, 0, 1, 0, 3, 0, 0, 0, 49, 46, 48] ++
    [16, 0, 0, 0, 99, 0, 0, 0, 0, 0, 0, 0, 5, 0, 20, 0]

/-- The greeting of the C8 counterexample: version 0, network-version
bytes `[0xFF]` (not valid UTF-8). -/
def greetC8 : List Nat := [11, 0, 0, 0, 1, 0, 0, 0, 0, 0, 255]

/-- The request actually sent for `greetC8`: the `0xFF` byte was dropped
by the lossy decode, so only the NUL remains where the echo should be. -/
def reqC8 : List Nat := [20, 0, 0, 0, 0, 0, 0, 0, 0, 0, 1] ++ listingUsernameBytes

/-! ## Helper lemmas: UTF-8 round trip on valid byte strings -/

theorem isCont_bounds {b : Nat} (h : isCont b = true) : 0x80 ≤ b ∧ b ≤ 0xBF := by
  simpa [isCont] using h

theorem utf8Second_bounds {b0 b1 : Nat} (h : utf8Second b0 b1 = true) :
    0x80 ≤ b1 ∧ b1 ≤ 0xBF ∧ (b0 = 0xE0 → 0xA0 ≤ b1) ∧ (b0 = 0xED → b1 ≤ 0x9F) ∧
      (b0 = 0xF0 → 0x90 ≤ b1) ∧ (b0 = 0xF4 → b1 ≤ 0x8F) := by
  unfold utf8Second at h
  split_ifs at h with h1 h2 h3 h4 <;> simp [isCont] at h <;> omega

theorem getD_pos {rest : List Nat} {i : Nat} (h : 1 ≤ rest.getD i 0) : i < rest.length := by
  by_contra hlen
  rw [List.getD_eq_default] at h
  · omega
  · omega

theorem decodeOne_spec {l : List Nat} {cp k : Nat} (h : decodeOne l = some (cp, k)) :
    encodeChar cp = l.take k ∧ 1 ≤ k ∧ k ≤ l.length := by
  cases l with
  | nil => simp [decodeOne] at h
  | cons b0 rest =>
    simp only [decodeOne] at h
    split_ifs at h with h1 h2 h3 hc h4 hc h5 hc
    · -- ASCII
      obtain ⟨rfl, rfl⟩ : b0 = cp ∧ 1 = k := by simpa using h
      exact ⟨by simp [encodeChar, if_pos h1], by omega, by simp⟩
    · -- two bytes
      obtain ⟨hcp, hk⟩ : (b0 - 0xC0) * 0x40 + (rest.getD 0 0 - 0x80) = cp ∧ 2 = k := by
        simpa using h
      obtain ⟨hb1a, hb1b⟩ := isCont_bounds hc
      have hr1 : 0 < rest.length := getD_pos (by omega)
      subst hcp; subst hk
      refine ⟨?_, by omega, by simpa using hr1⟩
      rw [encodeChar, if_neg (by omega), if_pos (by omega)]
      cases rest with
      | nil => simp at hr1
      | cons b1 rest1 =>
        simp only [List.getD_cons_zero, List.take_succ_cons, List.take_zero,
          List.cons.injEq, and_true] at *
        omega
    · -- three bytes
      rw [Bool.and_eq_true] at hc
      obtain ⟨hcp, hk⟩ :
          (b0 - 0xE0) * 0x1000 + (rest.getD 0 0 - 0x80) * 0x40 + (rest.getD 1 0 - 0x80) = cp ∧
            3 = k := by simpa using h
      obtain ⟨hb1a, hb1b, he0, hed, _, _⟩ := utf8Second_bounds hc.1
      obtain ⟨hb2a, hb2b⟩ := isCont_bounds hc.2
      have hr2 : 1 < rest.length := getD_pos (by omega)
      subst hcp; subst hk
      refine ⟨?_, by omega, by simp; omega⟩
      rw [encodeChar, if_neg (by omega), if_neg (by omega), if_pos (by omega)]
      match rest, hr2 with
      | b1 :: b2 :: rest2, _ =>
        simp only [List.getD_cons_zero, List.getD_cons_succ, List.take_succ_cons,
          List.take_zero, List.cons.injEq, and_true] at *
        omega
    · -- four bytes
      rw [Bool.and_eq_true, Bool.and_eq_true] at hc
      obtain ⟨hcp, hk⟩ :
          (b0 - 0xF0) * 0x40000 + (rest.getD 0 0 - 0x80) * 0x1000 +
              (rest.getD 1 0 - 0x80) * 0x40 + (rest.getD 2 0 - 0x80) = cp ∧ 4 = k := by
        simpa using h
      obtain ⟨hb1a, hb1b, _, _, hf0, hf4⟩ := utf8Second_bounds hc.1.1
      obtain ⟨hb2a, hb2b⟩ := isCont_bounds hc.1.2
      obtain ⟨hb3a, hb3b⟩ := isCont_bounds hc.2
      have hr3 : 2 < rest.length := getD_pos (by omega)
      subst hcp; subst hk
      refine ⟨?_, by omega, by simp; omega⟩
      rw [encodeChar, if_neg (by omega), if_neg (by omega), if_neg (by omega)]
      match rest, hr3 with
      | b1 :: b2 :: b3 :: rest3, _ =>
        simp only [List.getD_cons_zero, List.getD_cons_succ, List.take_succ_cons,
          List.take_zero, List.cons.injEq, and_true] at *
        omega

theorem utf8Encode_cons (cp : Nat) (l : List Nat) :
    utf8Encode (cp :: l) = encodeChar cp ++ utf8Encode l := by
  simp [utf8Encode]

theorem decodeIgnoreAux_roundtrip :
    ∀ (fuel : Nat), ∀ (l : List Nat), l.length ≤ fuel → validAux fuel l = true →
      utf8Encode (decodeIgnoreAux fuel l) = l := by
  intro fuel
  induction fuel with
  | zero =>
    intro l hl _
    cases l with
    | nil => simp [decodeIgnoreAux, utf8Encode]
    | cons b t => simp at hl
  | succ n ih =>
    intro l hl hv
    cases l with
    | nil => simp [decodeIgnoreAux, utf8Encode]
    | cons b t =>
      cases hd : decodeOne (b :: t) with
      | none => simp [validAux, hd] at hv
      | some ck =>
        obtain ⟨cp, k⟩ := ck
        obtain ⟨henc, hk1, hk2⟩ := decodeOne_spec hd
        simp only [validAux, hd] at hv
        simp only [decodeIgnoreAux, hd]
        have hlen : ((b :: t).drop k).length ≤ n := by
          simp only [List.length_drop, List.length_cons] at *
          omega
        rw [utf8Encode_cons, ih _ hlen hv, henc, List.take_append_drop]

theorem utf8Valid_roundtrip {l : List Nat} (h : utf8Valid l = true) :
    utf8Encode (utf8DecodeIgnore l) = l :=
  decodeIgnoreAux_roundtrip l.length l le_rfl h

/-! ## Helper lemmas: the store operations through `find?` -/

theorem find?_updateWhere (p : ServerRecord → Bool) (f : ServerRecord → ServerRecord)
    (l : List ServerRecord) (hpf : ∀ r, p r = true → p (f r) = true) :
    (updateWhere p f l).find? p = (l.find? p).map f := by
  induction l with
  | nil => simp [updateWhere]
  | cons a l ih =>
    by_cases ha : p a
    · simp [updateWhere, ha, List.find?_cons_of_pos, hpf a ha]
    · simp only [updateWhere, List.map_cons, if_neg ha] at *
      rw [List.find?_cons_of_neg _ (by simp [ha]), List.find?_cons_of_neg _ (by simp [ha]), ih]

theorem updateWhere_eq_self {p : ServerRecord → Bool} {f : ServerRecord → ServerRecord}
    {l : List ServerRecord} (h : ∀ r ∈ l, ¬ p r = true) : updateWhere p f l = l := by
  induction l with
  | nil => simp [updateWhere]
  | cons a l ih =>
    simp only [updateWhere, List.map_cons] at *
    rw [if_neg (h a (by simp)), ih (fun r hr => h r (by simp [hr]))]

theorem map_key_updateWhere {p : ServerRecord → Bool} {f : ServerRecord → ServerRecord}
    (l : List ServerRecord) (hkey : ∀ r, ((f r).ip, (f r).port) = (r.ip, r.port)) :
    (updateWhere p f l).map (fun r => (r.ip, r.port)) = l.map (fun r => (r.ip, r.port)) := by
  induction l with
  | nil => simp [updateWhere]
  | cons a l ih =>
    simp only [updateWhere, List.map_cons] at *
    rw [ih]
    by_cases ha : p a
    · rw [if_pos ha, hkey a]
    · rw [if_neg ha]

theorem get_server_add_server_existing {st : Store} {now : Nat} {ip : String} {port : Nat}
    {src : String} {tr imp : Bool} {web : Option String} {r : ServerRecord}
    (hr : get_server ip port st = some r) :
    get_server ip port (add_server now ip port src tr imp web st).2 =
      some (mergeRow now src tr imp web r) := by
  have hany : st.rows.any (keyIs ip port) = true :=
    List.any_eq_true.mpr ⟨r, List.mem_of_find?_eq_some hr, List.find?_some hr⟩
  unfold add_server
  rw [if_pos hany]
  unfold get_server at *
  simp only
  rw [find?_updateWhere (keyIs ip port)]
  · rw [hr]; rfl
  · exact fun _ hx => hx

theorem get_server_update_server_info {st : Store} {now : Nat} {ip : String} {port : Nat}
    {snap : Snapshot} {r : ServerRecord} (hr : get_server ip port st = some r) :
    get_server ip port (update_server_info now ip port snap st) =
      some { r with
        name := snap.name, info := snap.info, news := snap.news,
        players := snap.players, max_players := snap.max_players,
        icon := snap.icon, last_queried := some now, query_failures := 0 } := by
  unfold update_server_info get_server at *
  simp only
  rw [find?_updateWhere (keyIs ip port)]
  · rw [hr]; rfl
  · exact fun _ hx => hx

theorem get_server_mark_query_failure {st : Store} {now : Nat} {ip : String} {port : Nat}
    {r : ServerRecord} (hr : get_server ip port st = some r) :
    get_server ip port (mark_query_failure now ip port st) =
      some { r with query_failures := r.query_failures + 1, last_queried := some now } := by
  unfold mark_query_failure get_server at *
  simp only
  rw [find?_updateWhere (keyIs ip port)]
  · rw [hr]; rfl
  · exact fun _ hx => hx

theorem update_server_info_noop {st : Store} {now : Nat} {ip : String} {port : Nat}
    {snap : Snapshot} (h : get_server ip port st = none) :
    update_server_info now ip port snap st = st := by
  unfold get_server at h
  rw [List.find?_eq_none] at h
  unfold update_server_info
  rw [updateWhere_eq_self h]

theorem mark_query_failure_noop {st : Store} {now : Nat} {ip : String} {port : Nat}
    (h : get_server ip port st = none) : mark_query_failure now ip port st = st := by
  unfold get_server at h
  rw [List.find?_eq_none] at h
  unfold mark_query_failure
  rw [updateWhere_eq_self h]

theorem set_favorite_noop {st : Store} {ip : String} {port : Nat} {b : Bool}
    (h : get_server ip port st = none) : set_favorite ip port b st = st := by
  unfold get_server at h
  rw [List.find?_eq_none] at h
  unfold set_favorite
  cases b with
  | true =>
    rw [if_pos rfl, updateWhere_eq_self h]
  | false =>
    rw [if_neg (by simp), updateWhere_eq_self (fun r hr => by simp [Bool.and_eq_true, h r hr])]

/-! ## Helper lemmas: receiving and parsing a well-formed greeting -/

theorem fromLE4At_toLE4 (n : Nat) (l : List Nat) (h : n < 4294967296) :
    fromLE4At (toLE4 n ++ l) 0 = n := by
  simp [fromLE4At, toLE4, byteAt, List.getD]
  omega

theorem drop4_toLE4 (n : Nat) (l : List Nat) : (toLE4 n ++ l).drop 4 = l := rfl

theorem take4_toLE4 (n : Nat) (l : List Nat) : (toLE4 n ++ l).take 4 = toLE4 n := rfl

theorem recv_packet_greeting (flags version : Nat) (s rest : List Nat)
    (hlen : 10 + s.length < 4294967296) :
    recv_packet (greetingFrame flags version s ++ rest) =
      .ok (greetingFrame flags version s, rest) := by
  have hassoc : greetingFrame flags version s ++ rest =
      toLE4 (10 + s.length) ++ ((NET_SVM_WHATS_UP :: flags :: (toLE4 version ++ s)) ++ rest) := by
    simp [greetingFrame]
  have hbodylen : (NET_SVM_WHATS_UP :: flags :: (toLE4 version ++ s)).length = 6 + s.length := by
    simp [toLE4]
    omega
  unfold recv_packet
  rw [hassoc, fromLE4At_toLE4 _ _ hlen, drop4_toLE4, take4_toLE4]
  rw [if_neg (by simp [toLE4]), if_neg (by simp [toLE4]; omega)]
  have htake : ((NET_SVM_WHATS_UP :: flags :: (toLE4 version ++ s)) ++ rest).take
      (10 + s.length - 4) = NET_SVM_WHATS_UP :: flags :: (toLE4 version ++ s) := by
    rw [show 10 + s.length - 4 = (NET_SVM_WHATS_UP :: flags :: (toLE4 version ++ s)).length
      from by rw [hbodylen]; omega]
    exact List.take_left _ _
  have hdrop : ((NET_SVM_WHATS_UP :: flags :: (toLE4 version ++ s)) ++ rest).drop
      (10 + s.length - 4) = rest := by
    rw [show 10 + s.length - 4 = (NET_SVM_WHATS_UP :: flags :: (toLE4 version ++ s)).length
      from by rw [hbodylen]; omega]
    exact List.drop_left _ _
  rw [htake, hdrop]
  simp [greetingFrame]

theorem parse_whats_up_greeting (flags version : Nat) (s : List Nat)
    (hv : version < 4294967296) :
    parse_whats_up (greetingFrame flags version s) =
      .ok (flags, version, utf8DecodeIgnore s) := by
  unfold greetingFrame parse_whats_up
  rw [drop4_toLE4]
  simp only [NET_SVM_WHATS_UP]
  rw [if_neg (by omega)]
  rw [if_neg (by simp [toLE4])]
  have hver : fromLE4At (1 :: flags :: (toLE4 version ++ s)) 2 = version := by
    simp [fromLE4At, toLE4, byteAt, List.getD]
    omega
  have hdrop6 : (1 :: flags :: (toLE4 version ++ s)).drop 6 = s := by
    simp [toLE4]
  rw [hver, hdrop6]
  rfl

/-! ## The claims -/

/-- C1: for every stored record whose source is `favorite`, an upsert on its
key with source `dynamic` or `manual` leaves the source `favorite`; in
general the merged source is `favorite` iff either side is `favorite`, and
the incoming source otherwise. -/
theorem claim_C1 (st : Store) (now : Nat) (ip : String) (port : Nat) (src : String)
    (tr imp : Bool) (web : Option String) (r : ServerRecord)
    (hr : get_server ip port st = some r) :
    ∃ r', get_server ip port (add_server now ip port src tr imp web st).2 = some r' ∧
      r'.source = (if src = "favorite" then "favorite"
        else if r.source = "favorite" then "favorite" else src) := by
  refine ⟨_, get_server_add_server_existing hr, ?_⟩
  simp [mergeRow, mergeSource, beq_iff_eq]

/-- C1 witness: upserting the favorite row of `exStore` with source
`dynamic` keeps its source `favorite`. -/
theorem claim_C1_witness :
    ∃ r', get_server "alpha" 10 (add_server 7 "alpha" 10 "dynamic" true true none exStore).2 =
        some r' ∧
      r'.source = (if "dynamic" = "favorite" then "favorite"
        else if rowFav.source = "favorite" then "favorite" else "dynamic") :=
  claim_C1 exStore 7 "alpha" 10 "dynamic" true true none rowFav (by decide)

/-- C2: `cleanup_failed_servers N` keeps exactly the rows that are not
(dynamic with at least `N` failures), returns exactly the `(ip, port)`
identities of the deleted rows, and keeps every manual and favorite row. -/
theorem claim_C2 (st : Store) (N : Nat) :
    (∀ r, r ∈ (cleanup_failed_servers N st).2.rows ↔
      r ∈ st.rows ∧ ¬(r.source = "dynamic" ∧ N ≤ r.query_failures)) ∧
    (∀ q, q ∈ (cleanup_failed_servers N st).1 ↔
      ∃ r ∈ st.rows, r.source = "dynamic" ∧ N ≤ r.query_failures ∧ (r.ip, r.port) = q) ∧
    (∀ r ∈ st.rows, r.source = "manual" ∨ r.source = "favorite" →
      r ∈ (cleanup_failed_servers N st).2.rows) := by
  refine ⟨fun r => ?_, fun q => ?_, fun r hr hsrc => ?_⟩
  · simp [cleanup_failed_servers, List.mem_filter, evictCond, beq_iff_eq,
      Decidable.not_and_iff_or_not, not_le]
    tauto
  · simp [cleanup_failed_servers, List.mem_map, List.mem_filter, evictCond, beq_iff_eq]
    tauto
  · simp [cleanup_failed_servers, List.mem_filter, evictCond, beq_iff_eq, hr]
    rcases hsrc with h | h <;> simp [h]

/-- C2 witness: with threshold 5 on `exStore`, the manual row survives, the
dynamic row with 5 failures is returned as removed. -/
theorem claim_C2_witness :
    rowMan ∈ (cleanup_failed_servers 5 exStore).2.rows ∧
      ("beta", 20) ∈ (cleanup_failed_servers 5 exStore).1 :=
  ⟨(claim_C2 exStore 5).2.2 rowMan (by decide) (Or.inl rfl),
   ((claim_C2 exStore 5).2.1 ("beta", 20)).mpr ⟨rowDyn, by decide, rfl, by decide, rfl⟩⟩

/-- C3 counterexample: `search_servers "a"` returns the row named `"A"`,
which does not contain `"a"` as a case-sensitive substring — sqlite's
default `LIKE` is case-insensitive on ASCII, so the claim's "exactly the
records … case-sensitive substring" fails. -/
theorem claim_C3_counterexample :
    rowUpper ∈ search_servers "a" stC3 ∧ matchesCaseSensitive "a" rowUpper = false := by
  constructor
  · unfold search_servers sortRows
    rw [List.mem_mergeSort]
    decide
  · decide

/-- C3 (amended): `search_servers q` returns exactly the rows whose name,
info or ip matches the sqlite `LIKE` pattern `%q%` under sqlite's default
semantics (ASCII-case-insensitive; `%`/`_` in `q` act as wildcards; `NULL`
columns never match). -/
theorem claim_C3_amended (st : Store) (q : String) (r : ServerRecord) :
    r ∈ search_servers q st ↔ r ∈ st.rows ∧ searchMatch q r = true := by
  unfold search_servers sortRows
  rw [List.mem_mergeSort, List.mem_filter]

/-- C3 witness: the amended characterisation applied on the concrete
store (the uppercase row matches the lowercase query). -/
theorem claim_C3_witness : rowUpper ∈ search_servers "a" stC3 :=
  (claim_C3_amended stC3 "a" rowUpper).mpr ⟨by decide, by decide⟩

/-- C4 counterexample: upserting with the empty-string website overwrites
the stored website `"w"` with `""` (the claim predicted it would be kept). -/
theorem claim_C4_counterexample :
    (get_server "alpha" 10 (add_server 5 "alpha" 10 "manual" false false (some "") exStore).2).map
        ServerRecord.website = some (some "") ∧
      (some "" : Option String) ≠ some "w" :=
  ⟨rfl, by decide⟩

/-- C4 (amended): on upsert of an existing record, the stored website is
kept exactly when the incoming website is absent (`None`); any provided
string, the empty string included, overwrites it. -/
theorem claim_C4_amended (st : Store) (now : Nat) (ip : String) (port : Nat) (src : String)
    (tr imp : Bool) (web : Option String) (r : ServerRecord)
    (hr : get_server ip port st = some r) :
    ∃ r', get_server ip port (add_server now ip port src tr imp web st).2 = some r' ∧
      r'.website = (match web with | some w => some w | none => r.website) :=
  ⟨_, get_server_add_server_existing hr, rfl⟩

/-- C4 witness: an upsert with website `None` keeps the stored `"w"`. -/
theorem claim_C4_witness :
    ∃ r', get_server "alpha" 10 (add_server 8 "alpha" 10 "manual" false false none exStore).2 =
        some r' ∧
      r'.website = (match (none : Option String) with | some w => some w | none => rowFav.website) :=
  claim_C4_amended exStore 8 "alpha" 10 "manual" false false none rowFav (by decide)

/-- C5 counterexample: on `streamC5` the response frame's type byte (byte 4
of the frame, at stream offset 17) is 99 ≠ `LIST_SERVER`, yet `query_dss`
returns a parsed result instead of failing with a protocol error. -/
theorem claim_C5_counterexample :
    streamC5.getD 17 0 = 99 ∧ (99 : Nat) ≠ NET_SVM_LIST_SERVER ∧
      query_dss streamC5 =
        .ok { name := [], info := [], news := [], players := 5, max_players := 20, icon := [] } :=
  ⟨rfl, by decide, rfl⟩

/-- C5 (amended): a greeting frame whose message-type byte differs from
`WHATS_UP` makes `query_dss` fail with exactly the protocol error
`ValueError "Expected WHATS_UP"`; but the listing-response frame's
message-type byte is never examined — `parse_list_server` depends only on
`pkt[5:]` — so a response with an unexpected type byte is parsed normally
instead of failing. -/
theorem claim_C5_amended :
    (∀ stream pkt rest b tail, recv_packet stream = .ok (pkt, rest) →
      pkt.drop 4 = b :: tail → b ≠ NET_SVM_WHATS_UP →
      query_dss stream = .error (.valueError "Expected WHATS_UP")) ∧
    (∀ pkt1 pkt2, pkt1.drop 5 = pkt2.drop 5 →
      parse_list_server pkt1 = parse_list_server pkt2) := by
  constructor
  · intro stream pkt rest b tail hrecv hdrop hb
    have hpw : parse_whats_up pkt = .error (.valueError "Expected WHATS_UP") := by
      simp only [parse_whats_up, hdrop]
      simp [hb]
    simp only [query_dss, hrecv, hpw]
  · intro pkt1 pkt2 h
    simp only [parse_list_server, h]

/-- C5 witness: the amended theorem applied to a concrete 5-byte frame
with type byte 2, and to two concrete response packets differing only in
their type byte. -/
theorem claim_C5_witness :
    query_dss [5, 0, 0, 0, 2] = .error (.valueError "Expected WHATS_UP") ∧
      parse_list_server [16, 0, 0, 0, 99, 0, 0, 0, 0, 0, 0, 0, 5, 0, 20, 0] =
        parse_list_server [16, 0, 0, 0, 2, 0, 0, 0, 0, 0, 0, 0, 5, 0, 20, 0] :=
  ⟨claim_C5_amended.1 [5, 0, 0, 0, 2] [5, 0, 0, 0, 2] [] 2 [] (by rfl) (by rfl) (by decide),
   claim_C5_amended.2 _ _ (by rfl)⟩

/-- C6: `update_server_info` overwrites the six queried fields with the
snapshot's values, refreshes `last_queried` and resets `query_failures` to
0 whatever its prior value; `mark_query_failure` increments
`query_failures` by exactly 1 and refreshes `last_queried`, and is a no-op
on a key with no record. -/
theorem claim_C6 (st : Store) (now : Nat) (ip : String) (port : Nat) (snap : Snapshot)
    (r : ServerRecord) (hr : get_server ip port st = some r) :
    get_server ip port (update_server_info now ip port snap st) =
      some { r with
        name := snap.name, info := snap.info, news := snap.news,
        players := snap.players, max_players := snap.max_players,
        icon := snap.icon, last_queried := some now, query_failures := 0 } ∧
    get_server ip port (mark_query_failure now ip port st) =
      some { r with query_failures := r.query_failures + 1, last_queried := some now } ∧
    (∀ ip2 port2, get_server ip2 port2 st = none → mark_query_failure now ip2 port2 st = st) :=
  ⟨get_server_update_server_info hr, get_server_mark_query_failure hr,
   fun _ _ h => mark_query_failure_noop h⟩

/-- C6 witness: a successful update on the dynamic row of `exStore` resets
its failure counter from 5 to 0; a failure mark takes it to 6. -/
theorem claim_C6_witness :
    get_server "beta" 20 (update_server_info 9 "beta" 20
        { name := some "B", info := some "i", news := some "n",
          players := some 1, max_players := some 2, icon := some [3] } exStore) =
      some { rowDyn with
        name := some "B", info := some "i", news := some "n",
        players := some 1, max_players := some 2,
        icon := some [3], last_queried := some 9, query_failures := 0 } ∧
    get_server "beta" 20 (mark_query_failure 9 "beta" 20 exStore) =
      some { rowDyn with query_failures := rowDyn.query_failures + 1, last_queried := some 9 } ∧
    (∀ ip2 port2, get_server ip2 port2 exStore = none →
      mark_query_failure 9 ip2 port2 exStore = exStore) :=
  claim_C6 exStore 9 "beta" 20
    { name := some "B", info := some "i", news := some "n",
      players := some 1, max_players := some 2, icon := some [3] } rowDyn (by decide)

/-- C7: when the query fails (`qres = none`) and no record with the key
exists, `validate_and_add_server` returns `False` and leaves the store
exactly unchanged; when a record exists, it returns `False` and the only
change is the failure mark. -/
theorem claim_C7 (st : Store) (now : Nat) (ip : String) (port : Nat)
    (tr imp : Bool) (web : Option String) :
    (get_server ip port st = none →
      validate_and_add_server now ip port tr imp web none st = (false, st)) ∧
    (∀ r, get_server ip port st = some r →
      validate_and_add_server now ip port tr imp web none st =
        (false, mark_query_failure now ip port st)) := by
  constructor
  · intro h
    unfold validate_and_add_server
    rw [h]
    rfl
  · intro r h
    unfold validate_and_add_server
    rw [h]
    rfl

/-- C7 witness: a failed query for an unknown key leaves `exStore`
untouched. -/
theorem claim_C7_witness :
    validate_and_add_server 4 "delta" 40 false false none none exStore = (false, exStore) :=
  (claim_C7 exStore 4 "delta" 40 false false none).1 (by decide)

/-- C8 counterexample: for the non-UTF-8 network-version byte string
`[0xFF]`, the sent request does not reproduce it byte-for-byte — the echo
claimed for every byte string fails. -/
theorem claim_C8_counterexample :
    query_dss_sent greetC8 = .ok reqC8 ∧
      reqC8 ≠ toLE4 21 ++
        NET_MSG_LISTING :: (toLE4 0 ++ ([255] ++ [0]) ++ 1 :: listingUsernameBytes) :=
  ⟨rfl, by decide⟩

/-- C8 (amended): for every valid greeting frame whose network-version
bytes are valid UTF-8, the listing request `query_dss` sends echoes the
protocol version as the same 4-byte little-endian uint32 and the
network-version bytes byte-for-byte followed by one NUL.  (For non-UTF-8
bytes the echo is the UTF-8 re-encoding of the lossy decode instead — see
the counterexample.) -/
theorem claim_C8_amended (flags version : Nat) (s rest : List Nat)
    (hlen : 10 + s.length < 4294967296) (hv : version < 4294967296)
    (hs : utf8Valid s = true) :
    query_dss_sent (greetingFrame flags version s ++ rest) =
      .ok (toLE4 (20 + s.length) ++
        NET_MSG_LISTING :: (toLE4 version ++ (s ++ [0]) ++ 1 :: listingUsernameBytes)) := by
  simp only [query_dss_sent, recv_packet_greeting flags version s rest hlen,
    parse_whats_up_greeting flags version s hv]
  simp only [build_listing_request]
  rw [utf8Valid_roundtrip hs]
  congr 1
  congr 1
  · congr 1
    simp [toLE4, listingUsernameBytes]
    omega
  · simp [NET_MSG_LISTING, List.append_assoc]

/-- C8 witness: the amended echo theorem applied to the UTF-8
network-version bytes `"ab"` with version 1. -/
theorem claim_C8_witness :
    query_dss_sent (greetingFrame 0 1 [97, 98] ++ []) =
      .ok (toLE4 (20 + 2) ++
        NET_MSG_LISTING :: (toLE4 1 ++ ([97, 98] ++ [0]) ++ 1 :: listingUsernameBytes)) :=
  claim_C8_amended 0 1 [97, 98] [] (by decide) (by decide) (by decide)

/-- C9: an upsert on an existing record's key never changes its name,
info, news, players, max_players, icon, query_failures or added_date. -/
theorem claim_C9 (st : Store) (now : Nat) (ip : String) (port : Nat) (src : String)
    (tr imp : Bool) (web : Option String) (r : ServerRecord)
    (hr : get_server ip port st = some r) :
    ∃ r', get_server ip port (add_server now ip port src tr imp web st).2 = some r' ∧
      r'.name = r.name ∧ r'.info = r.info ∧ r'.news = r.news ∧
      r'.players = r.players ∧ r'.max_players = r.max_players ∧ r'.icon = r.icon ∧
      r'.query_failures = r.query_failures ∧ r'.added_date = r.added_date :=
  ⟨_, get_server_add_server_existing hr, rfl, rfl, rfl, rfl, rfl, rfl, rfl, rfl⟩

/-- C9 witness: the frame condition instantiated on the favorite row of
`exStore`. -/
theorem claim_C9_witness :
    ∃ r', get_server "alpha" 10 (add_server 6 "alpha" 10 "dynamic" true false (some "v") exStore).2 =
        some r' ∧
      r'.name = rowFav.name ∧ r'.info = rowFav.info ∧ r'.news = rowFav.news ∧
      r'.players = rowFav.players ∧ r'.max_players = rowFav.max_players ∧
      r'.icon = rowFav.icon ∧
      r'.query_failures = rowFav.query_failures ∧ r'.added_date = rowFav.added_date :=
  claim_C9 exStore 6 "alpha" 10 "dynamic" true false (some "v") rowFav (by decide)

/-- C10: `update_server_info`, `mark_query_failure` and `set_favorite`
never change the set of keys in the store, and each is a no-op on the
store for a key with no record (`set_favorite` with either boolean). -/
theorem claim_C10 (st : Store) (now : Nat) (ip : String) (port : Nat) (snap : Snapshot) :
    storeKeys (update_server_info now ip port snap st) = storeKeys st ∧
    storeKeys (mark_query_failure now ip port st) = storeKeys st ∧
    (∀ b, storeKeys (set_favorite ip port b st) = storeKeys st) ∧
    (get_server ip port st = none →
      update_server_info now ip port snap st = st ∧
      mark_query_failure now ip port st = st ∧
      ∀ b, set_favorite ip port b st = st) := by
  refine ⟨?_, ?_, ?_, fun h =>
    ⟨update_server_info_noop h, mark_query_failure_noop h, fun _ => set_favorite_noop h⟩⟩
  · exact map_key_updateWhere st.rows (fun _ => rfl)
  · exact map_key_updateWhere st.rows (fun _ => rfl)
  · intro b
    cases b with
    | true =>
      unfold set_favorite storeKeys
      rw [if_pos rfl]
      exact map_key_updateWhere st.rows (fun _ => rfl)
    | false =>
      unfold set_favorite storeKeys
      rw [if_neg (by simp)]
      exact map_key_updateWhere st.rows (fun _ => rfl)

/-- C10 witness: the key set of `exStore` survives all three operations,
and an unknown key makes them no-ops. -/
theorem claim_C10_witness :
    storeKeys (mark_query_failure 3 "alpha" 10 exStore) = storeKeys exStore ∧
      set_favorite "delta" 40 false exStore = exStore :=
  ⟨(claim_C10 exStore 3 "alpha" 10
      { name := none, info := none, news := none,
        players := none, max_players := none, icon := none }).2.1,
   ((claim_C10 exStore 3 "delta" 40
      { name := none, info := none, news := none,
        players := none, max_players := none, icon := none }).2.2.2 (by decide)).2.2 false⟩

end DSSB
